import Mathlib

/-!
Shallow embedding of the squadcast terraform provider sources
(`internal/api/schedules.go`, `internal/provider/resource_webform.go`,
`internal/provider/resource_schedule_rotation.go`) together with theorems
checking the natural-language specification against the code.

Go values are translated as follows: strings are `String`, Go `int`/`int64`
are `Int`, unsigned ids are `Nat`, slices are `List`, `map[string]T` is an
association list, fallible calls return `Except GoError`, and nilable
pointers are `Option`.  Remote HTTP / GraphQL execution (the `Request`,
`GraphQLRequest` helpers of the api package, which are not part of the three
source files) is modelled by oracle function parameters; each wrapper
returns the list of requests it issued together with the oracle's answer.
-/

namespace Squadcast

/-- Error value returned by the api client.  `notFound` models the predicate
`api.IsResourceNotFoundError` on the error. -/
structure GoError where
  notFound : Bool
  msg : String
deriving DecidableEq, Repr

/-- Result of a terraform CRUD handler (`diag.Diagnostics`): `ok` is a nil
diagnostics, `errorf` models `diag.Errorf` (a validation-style error built
from a message) and `fromErr` models `diag.FromErr` (a wrapped error). -/
inductive Diag where
  | ok : Diag
  | errorf : String → Diag
  | fromErr : GoError → Diag
deriving DecidableEq, Repr

/-! ### The tf map model (`tf.M`) -/

/-- Dynamic value stored in a `tf.M` map. -/
inductive TfVal where
  | str : String → TfVal
  | int : Int → TfVal
  | listOfMaps : List (List (String × TfVal)) → TfVal

/-- A `tf.M` map, modelled as an association list. -/
abbrev TfM := List (String × TfVal)

/-- Go map assignment `m[k] = v`: overwrite the binding of `k` when present,
otherwise add it. -/
def mapSet (m : TfM) (k : String) (v : TfVal) : TfM :=
  if m.any (fun p => p.1 = k) then
    m.map (fun p => if p.1 = k then (k, v) else p)
  else
    m ++ [(k, v)]

/-- Go map lookup `m[k]`. -/
def mapGet (m : TfM) (k : String) : Option TfVal :=
  (m.find? (fun p => p.1 = k)).map Prod.snd

/-! ### `internal/api/schedules.go`: data structures -/

/-- Owner reference embedded in the legacy `Schedule` struct; only its `ID`
field is used by the code under consideration. -/
structure OwnerRef where
  ID : String
deriving DecidableEq, Repr

/-- Legacy schedule struct.  `Slug` and `Owner` carry the struct tag
`tf:"-"`; the other fields are tagged `id`, `name`, `color`, `description`. -/
structure Schedule where
  ID : String
  Name : String
  Slug : String
  Colour : String
  Description : String
  Owner : OwnerRef
deriving DecidableEq, Repr

/-- Owner struct of the V2 schedule. -/
structure Owner where
  ID : String
  Type' : String
deriving DecidableEq, Repr

/-- Tag struct with tf tags `key`, `value`, `color`. -/
structure Tag where
  Key : String
  Value : String
  Color : String
deriving DecidableEq, Repr

/-- V2 schedule struct (`NewSchedule` in the source).  `Owner` is a
`*Owner` pointer in Go and is therefore an `Option`; its struct tag is
`tf:"-"`. -/
structure NewSchedule where
  ID : Int
  Name : String
  Description : String
  TimeZone : String
  TeamID : String
  Tags : List Tag
  Owner : Option Owner
deriving DecidableEq, Repr

/-! ### Modelled tf encoders

The reflection-driven `tf.Encode` / `tf.EncodeSlice` helpers live in the
`internal/tf` package, which is not among the source files. -/

/-- Modelled from the spec: struct-tag-driven reflection-based marshalling
(`tf.Encode`) applied to `Tag`: one map entry per field, keyed by the
field's `tf` struct tag. -/
def tfEncodeTag (t : Tag) : TfM :=
  [("key", .str t.Key), ("value", .str t.Value), ("color", .str t.Color)]

/-- Modelled from the spec: struct-tag-driven reflection-based marshalling
(`tf.Encode`) applied to `Schedule`: one map entry per field keyed by its
`tf` struct tag, skipping the fields tagged `tf:"-"` (`Slug`, `Owner`). -/
def tfEncodeSchedule (s : Schedule) : TfM :=
  [("id", .str s.ID), ("name", .str s.Name),
   ("color", .str s.Colour), ("description", .str s.Description)]

/-- Modelled from the spec: struct-tag-driven reflection-based marshalling
(`tf.Encode`) applied to `NewSchedule`: one map entry per field keyed by its
`tf` struct tag, skipping the field tagged `tf:"-"` (`Owner`). -/
def tfEncodeNewSchedule (s : NewSchedule) : TfM :=
  [("id", .int s.ID), ("name", .str s.Name),
   ("description", .str s.Description), ("timezone", .str s.TimeZone),
   ("team_id", .str s.TeamID),
   ("tags", .listOfMaps (s.Tags.map tfEncodeTag))]

/-! ### `internal/api/schedules.go`: the Encode methods

The methods are translated with the underlying `tf.Encode` /
`tf.EncodeSlice` calls abstracted as function parameters, so that the
control flow of the methods (error propagation, the `team_id` and `tags`
assignments, the `s.Owner.ID` pointer dereference) is exactly the source's. -/

/-- `(*Schedule).Encode`, parametrised by the underlying `tf.Encode`. -/
def Schedule.EncodeWith (tfEncode : Schedule → Except GoError TfM)
    (s : Schedule) : Except GoError TfM :=
  match tfEncode s with
  | .error e => .error e
  | .ok m => .ok (mapSet m "team_id" (.str s.Owner.ID))

/-- `(*NewSchedule).Encode`, parametrised by the underlying `tf.Encode` and
`tf.EncodeSlice`.  The result is `none` when the method dereferences a nil
`Owner` pointer (the Go code would panic there). -/
def NewSchedule.EncodeWith (tfEncode : NewSchedule → Except GoError TfM)
    (tfEncodeSlice : List Tag → Except GoError (List TfM))
    (s : NewSchedule) : Option (Except GoError TfM) :=
  match tfEncode s with
  | .error e => some (.error e)
  | .ok m =>
    match s.Owner with
    | none => none
    | some o =>
      let m1 := mapSet m "team_id" (.str o.ID)
      match tfEncodeSlice s.Tags with
      | .error e => some (.error e)
      | .ok tagsEncoded => some (.ok (mapSet m1 "tags" (.listOfMaps tagsEncoded)))

/-- `(*Schedule).Encode` instantiated with the modelled tf encoder. -/
def scheduleEncode (s : Schedule) : Except GoError TfM :=
  Schedule.EncodeWith (fun x => .ok (tfEncodeSchedule x)) s

/-- `(*NewSchedule).Encode` instantiated with the modelled tf encoders. -/
def newScheduleEncode (s : NewSchedule) : Option (Except GoError TfM) :=
  NewSchedule.EncodeWith (fun x => .ok (tfEncodeNewSchedule x))
    (fun tags => .ok (tags.map tfEncodeTag)) s

/-! ### `internal/api/schedules.go`: HTTP and GraphQL wrappers -/

/-- Request body of the legacy schedule create/update call. -/
structure CreateUpdateScheduleReq where
  Name : String
  Color : String
  Description : String
  TeamID : String
deriving DecidableEq, Repr

/-- Body of an HTTP request issued by the schedule wrappers. -/
inductive HttpBody where
  | empty : HttpBody
  | schedule : CreateUpdateScheduleReq → HttpBody
deriving DecidableEq, Repr

/-- An HTTP request as assembled by a wrapper (method and formatted URL). -/
structure HttpRequest where
  method : String
  url : String
  body : HttpBody
deriving DecidableEq, Repr

/-- A GraphQL variable value. -/
inductive GqlVar where
  | int : Int → GqlVar
  | schedule : NewSchedule → GqlVar
deriving DecidableEq, Repr

/-- A GraphQL request: operation kind (`"query"` or `"mutate"`) and its
variables map. -/
structure GqlCall where
  kind : String
  vars : List (String × GqlVar)
deriving DecidableEq, Repr

/-- `client.GetScheduleById`: one GET request, result returned unmodified. -/
def GetScheduleById {A : Type} (oracle : HttpRequest → Except GoError A)
    (baseURLV3 teamID id : String) : List HttpRequest × Except GoError A :=
  let req : HttpRequest :=
    ⟨"GET", baseURLV3 ++ "/schedules/" ++ id ++ "?owner_id=" ++ teamID, .empty⟩
  ([req], oracle req)

/-- `client.ListSchedules`: one GET request, result returned unmodified. -/
def ListSchedules {A : Type} (oracle : HttpRequest → Except GoError A)
    (baseURLV3 teamID : String) : List HttpRequest × Except GoError A :=
  let req : HttpRequest :=
    ⟨"GET", baseURLV3 ++ "/schedules?owner_id=" ++ teamID, .empty⟩
  ([req], oracle req)

/-- `client.CreateSchedule`: one POST request carrying the request body. -/
def CreateSchedule {A : Type} (oracle : HttpRequest → Except GoError A)
    (baseURLV3 : String) (req : CreateUpdateScheduleReq) :
    List HttpRequest × Except GoError A :=
  let r : HttpRequest := ⟨"POST", baseURLV3 ++ "/schedules", .schedule req⟩
  ([r], oracle r)

/-- `client.UpdateSchedule`: one PUT request carrying the request body. -/
def UpdateSchedule {A : Type} (oracle : HttpRequest → Except GoError A)
    (baseURLV3 id : String) (req : CreateUpdateScheduleReq) :
    List HttpRequest × Except GoError A :=
  let r : HttpRequest := ⟨"PUT", baseURLV3 ++ "/schedules/" ++ id, .schedule req⟩
  ([r], oracle r)

/-- `client.DeleteSchedule`: one DELETE request. -/
def DeleteSchedule {A : Type} (oracle : HttpRequest → Except GoError A)
    (baseURLV3 id : String) : List HttpRequest × Except GoError A :=
  let r : HttpRequest := ⟨"DELETE", baseURLV3 ++ "/schedules/" ++ id, .empty⟩
  ([r], oracle r)

/-! ### Go `strconv.ParseInt(s, 10, 64)` -/

/-- Kind of a `strconv` parse error: invalid syntax or value out of range. -/
inductive ParseErr where
  | syn : ParseErr
  | range : ParseErr
deriving DecidableEq, Repr

/-- Numeric value of a base-10 digit character. -/
def digitVal (ch : Char) : Option Nat :=
  if '0' ≤ ch ∧ ch ≤ '9' then some (ch.toNat - '0'.toNat) else none

/-- Value of a non-empty all-digit character list; `none` on an empty list
or any non-digit character (Go `strconv.ParseUint` syntax error). -/
def digitsVal (l : List Char) : Option Nat :=
  match l with
  | [] => none
  | _ =>
    l.foldl
      (fun acc ch =>
        match acc, digitVal ch with
        | some n, some dv => some (n * 10 + dv)
        | _, _ => none)
      (some 0)

/-- Go `strconv.ParseInt(s, 10, 64)`: returns the parsed value and an
optional error.  On a syntax error the value is `0`; on a range error the
value is clamped to the 64-bit boundary (`ParseUint` saturates at
`2^64 - 1` and `ParseInt` then clamps to `2^63 - 1` / `-2^63`). -/
def goParseInt64 (s : String) : Int × Option ParseErr :=
  match s.toList with
  | [] => (0, some .syn)
  | c :: rest =>
    let neg : Bool := c = '-'
    let digits := if c = '-' ∨ c = '+' then rest else c :: rest
    match digitsVal digits with
    | none => (0, some .syn)
    | some n =>
      let un : Nat := min n (2 ^ 64 - 1)
      if ¬neg ∧ 2 ^ 63 ≤ un then (((2 ^ 63 - 1 : Nat) : Int), some .range)
      else if neg ∧ 2 ^ 63 < un then (-((2 ^ 63 : Nat) : Int), some .range)
      else ((if neg then -(un : Int) else (un : Int)), none)

/-- `client.DeleteScheduleV2ByID`: parses the ID with `strconv.ParseInt`,
discards the `diag.Errorf` value built on a parse error, and issues one
GraphQL mutate request with the parsed value as variable `ID`. -/
def DeleteScheduleV2ByID {A : Type} (oracle : GqlCall → Except GoError A)
    (ID : String) : List GqlCall × Except GoError A :=
  let id := (goParseInt64 ID).1
  let call : GqlCall := ⟨"mutate", [("ID", .int id)]⟩
  ([call], oracle call)

/-- `client.GetScheduleV2ById`: parses the ID with `strconv.ParseInt`,
discards the `diag.Errorf` value built on a parse error, and issues one
GraphQL query request with the parsed value as variable `ID`. -/
def GetScheduleV2ById {A : Type} (oracle : GqlCall → Except GoError A)
    (ID : String) : List GqlCall × Except GoError A :=
  let id := (goParseInt64 ID).1
  let call : GqlCall := ⟨"query", [("ID", .int id)]⟩
  ([call], oracle call)

/-- `client.CreateScheduleV2`: one GraphQL mutate request with the payload
as variable `input`. -/
def CreateScheduleV2 {A : Type} (oracle : GqlCall → Except GoError A)
    (payload : NewSchedule) : List GqlCall × Except GoError A :=
  let call : GqlCall := ⟨"mutate", [("input", .schedule payload)]⟩
  ([call], oracle call)

/-! ### `internal/provider/resource_schedule_rotation.go`: configuration -/

/-- One `shift_timeslots` block of the rotation configuration.  Unset
optional fields carry terraform's zero value (`""` for `day_of_week`). -/
structure TimeslotConfig where
  start_hour : Int
  start_minute : Int
  duration : Int
  day_of_week : String
deriving DecidableEq, Repr

/-- One participant of a participant group. -/
structure ParticipantConfig where
  ptype : String
  pid : String
deriving DecidableEq, Repr

/-- One `participant_groups` block. -/
structure PGConfig where
  participants : List ParticipantConfig
deriving DecidableEq, Repr

/-- Rotation resource configuration, one field per schema attribute; unset
optional attributes carry terraform's zero value (`0` / `""` / `[]`). -/
structure RotationConfig where
  schedule_id : Int
  name : String
  participant_groups : List PGConfig
  start_date : String
  period : String
  shift_timeslots : List TimeslotConfig
  custom_period_frequency : Int
  custom_period_unit : String
  change_participants_frequency : Int
  change_participants_unit : String
  end_date : String
  ends_after_iterations : Int
deriving DecidableEq, Repr

/-- The rotation resource data (`*schema.ResourceData`): the resource ID
plus the configured attributes. -/
structure RotationData where
  id : String
  attrs : RotationConfig
deriving DecidableEq, Repr

/-- The `api.NewRotation` request struct, with the fields the rotation
create handler assigns.  The `Decode` helper applied to the typed
configuration blocks is modelled as the identity, so participant groups and
timeslots keep their configuration form. -/
structure NewRotation where
  Name : String
  ParticipantGroups : List PGConfig
  StartDate : String
  Period : String
  ShiftTimeSlots : List TimeslotConfig
  CustomPeriodFrequency : Int
  CustomPeriodUnit : String
  ChangeParticipantsFrequency : Int
  ChangeParticipantsUnit : String
  EndDate : String
  EndsAfterIterations : Int
deriving DecidableEq, Repr

/-! ### `parse3PartImportID` and Go `strings.SplitN` -/

/-- Split off everything before the first occurrence of `sep`; the second
component is `some rest` when `sep` occurs. -/
def splitFirst (sep : Char) : List Char → List Char × Option (List Char)
  | [] => ([], none)
  | c :: cs =>
    if c = sep then ([], some cs)
    else
      let r := splitFirst sep cs
      (c :: r.1, r.2)

/-- Go `strings.SplitN(s, sep, n)` for a single-character separator: at
most `n` substrings, the last one containing the unsplit remainder. -/
def splitNChar (sep : Char) : Nat → List Char → List (List Char)
  | 0, _ => []
  | 1, cs => [cs]
  | n + 2, cs =>
    match splitFirst sep cs with
    | (a, none) => [a]
    | (a, some rest) => a :: splitNChar sep (n + 1) rest

/-- Result of `parse3PartImportID`: the three ID parts and an error flag. -/
structure ImportIDParts where
  teamID : String
  scheduleName : String
  rotationName : String
  err : Bool
deriving DecidableEq, Repr

/-- `parse3PartImportID`: split the import string on `":"` into at most
three parts; fail unless there are exactly three non-empty parts. -/
def parse3PartImportID (id : String) : ImportIDParts :=
  match (splitNChar ':' 3 id.toList).map String.mk with
  | [a, b, c] =>
    if a = "" ∨ b = "" ∨ c = "" then ⟨"", "", "", true⟩
    else ⟨a, b, c, false⟩
  | _ => ⟨"", "", "", true⟩

/-! ### Rotation handlers -/

/-- `resourceScheduleRotationRead`.  `api` is `client.GetScheduleRotationById`
and `encodeAndSet` is `tf.EncodeAndSet`, which writes the remote rotation's
fields back into the resource attributes (it cannot touch the resource ID,
which is only changed through `SetId`). -/
def resourceScheduleRotationRead {A : Type}
    (api : String → Except GoError A)
    (encodeAndSet : A → RotationConfig → Except GoError RotationConfig)
    (d : RotationData) : RotationData × Diag :=
  match api d.id with
  | .error e =>
    if e.notFound then ({ d with id := "" }, .ok) else (d, .fromErr e)
  | .ok v =>
    match encodeAndSet v d.attrs with
    | .error e => (d, .fromErr e)
    | .ok a => ({ d with attrs := a }, .ok)

/-- The `api.NewRotation` value assembled by the create handler before the
custom-period branch: base fields copied from the configuration, participant
groups decoded (set only when non-empty, which coincides with copying), and
shift timeslots decoded (likewise). -/
def rotationReqBase (c : RotationConfig) : NewRotation :=
  { Name := c.name
    ParticipantGroups := c.participant_groups
    StartDate := c.start_date
    Period := c.period
    ShiftTimeSlots := c.shift_timeslots
    CustomPeriodFrequency := 0
    CustomPeriodUnit := ""
    ChangeParticipantsFrequency := c.change_participants_frequency
    ChangeParticipantsUnit := c.change_participants_unit
    EndDate := c.end_date
    EndsAfterIterations := c.ends_after_iterations }

/-- Outcome of the rotation create handler: final resource data, the
diagnostics, and the list of `CreateScheduleRotation` calls issued. -/
structure RotOutcome where
  d : RotationData
  diag : Diag
  calls : List (Int × NewRotation)
deriving DecidableEq, Repr

/-- Tail of `resourceScheduleRotationCreate` after validation: issue the
`CreateScheduleRotation` call, set the resource ID from the created
rotation's ID (`strconv.Itoa`), and run the read handler. -/
def rotationCreateCall {A : Type}
    (createApi : Int → NewRotation → Except GoError Int)
    (readApi : String → Except GoError A)
    (encodeAndSet : A → RotationConfig → Except GoError RotationConfig)
    (d : RotationData) (req : NewRotation) : RotOutcome :=
  match createApi d.attrs.schedule_id req with
  | .error e => ⟨d, .fromErr e, [(d.attrs.schedule_id, req)]⟩
  | .ok rid =>
    let d1 : RotationData := { d with id := toString rid }
    let p := resourceScheduleRotationRead readApi encodeAndSet d1
    ⟨p.1, p.2, [(d.attrs.schedule_id, req)]⟩

/-- `resourceScheduleRotationCreate`: build the request, run the handler's
own validation (multiple timeslots only for a custom period; custom period
fields set exactly when the period is custom), then create and re-read. -/
def resourceScheduleRotationCreate {A : Type}
    (createApi : Int → NewRotation → Except GoError Int)
    (readApi : String → Except GoError A)
    (encodeAndSet : A → RotationConfig → Except GoError RotationConfig)
    (d : RotationData) : RotOutcome :=
  let c := d.attrs
  let req := rotationReqBase c
  if c.shift_timeslots.length > 0 ∧ c.period ≠ "custom" ∧
      c.shift_timeslots.length > 1 then
    ⟨d, .errorf "multiple shift_timeslots can only be set when period is custom", []⟩
  else if c.period = "custom" then
    if c.custom_period_frequency = 0 then
      ⟨d, .errorf "custom_period_frequency must be set when period is custom", []⟩
    else if c.custom_period_unit = "" then
      ⟨d, .errorf "custom_period_unit must be set when period is custom", []⟩
    else
      rotationCreateCall createApi readApi encodeAndSet d
        { req with CustomPeriodFrequency := c.custom_period_frequency
                   CustomPeriodUnit := c.custom_period_unit }
  else
    if c.custom_period_frequency ≠ 0 then
      ⟨d, .errorf "custom_period_frequency can only be set when period is custom", []⟩
    else if c.custom_period_unit ≠ "" then
      ⟨d, .errorf "custom_period_unit can only be set when period is custom", []⟩
    else
      rotationCreateCall createApi readApi encodeAndSet d req

/-- The rotation resource wires its create handler as the update operation
(`UpdateContext: resourceScheduleRotationCreate`). -/
def scheduleRotationUpdateContext {A : Type}
    (createApi : Int → NewRotation → Except GoError Int)
    (readApi : String → Except GoError A)
    (encodeAndSet : A → RotationConfig → Except GoError RotationConfig)
    (d : RotationData) : RotOutcome :=
  resourceScheduleRotationCreate createApi readApi encodeAndSet d

/-- `resourceScheduleRotationDelete`. -/
def resourceScheduleRotationDelete {A : Type}
    (api : String → Except GoError A)
    (d : RotationData) : RotationData × Diag :=
  match api d.id with
  | .error e =>
    if e.notFound then ({ d with id := "" }, .ok) else (d, .fromErr e)
  | .ok _ => (d, .ok)

/-! ### Declarative schema validators of the rotation resource -/

/-- `validation.StringInSlice(l, false)`. -/
def stringInSlice (l : List String) (s : String) : Bool :=
  l.contains s

/-- Modelled from the spec: `tf.ValidateObjectID` (the `internal/tf` package
is not among the source files); accepts a 24-character lowercase hex object
id. -/
def validateObjectID (s : String) : Bool :=
  s.length == 24 &&
    s.toList.all (fun ch => ch.isDigit || ('a' ≤ ch && ch ≤ 'f'))

/-- Declared validators of one `shift_timeslots` block: hour 0–23, minute
0–59, duration 1–1440, optional weekday enum. -/
def validTimeslot (ts : TimeslotConfig) : Bool :=
  decide (0 ≤ ts.start_hour) && decide (ts.start_hour ≤ 23) &&
  decide (0 ≤ ts.start_minute) && decide (ts.start_minute ≤ 59) &&
  decide (1 ≤ ts.duration) && decide (ts.duration ≤ 1440) &&
  (ts.day_of_week == "" ||
    stringInSlice ["monday", "tuesday", "wednesday", "thursday", "friday",
      "saturday", "sunday"] ts.day_of_week)

/-- Declared validators of one participant. -/
def validParticipant (p : ParticipantConfig) : Bool :=
  stringInSlice ["user", "squad", "team"] p.ptype && validateObjectID p.pid

/-- Conjunction of all validators declared in the rotation resource schema:
string enums, integer ranges, the name length bound, and `MinItems: 1` on
`shift_timeslots`.  Optional string attributes are validated only when set
(non-empty). -/
def passesRotationSchemaValidators (c : RotationConfig) : Bool :=
  decide (1 ≤ c.name.length) && decide (c.name.length ≤ 150) &&
  stringInSlice ["none", "daily", "weekly", "monthly", "custom"] c.period &&
  decide (1 ≤ c.shift_timeslots.length) &&
  c.shift_timeslots.all validTimeslot &&
  (c.custom_period_unit == "" ||
    stringInSlice ["day", "week", "month"] c.custom_period_unit) &&
  stringInSlice ["rotation", "day", "week", "month"] c.change_participants_unit &&
  c.participant_groups.all (fun g => g.participants.all validParticipant)

/-- The configurations on which `resourceScheduleRotationCreate` performs
its own validation rejection (claim C9's disjunction). -/
def rotationRejectConds (c : RotationConfig) : Prop :=
  (c.period = "custom" ∧ c.custom_period_frequency = 0) ∨
  (c.period = "custom" ∧ c.custom_period_unit = "") ∨
  (c.period ≠ "custom" ∧ c.custom_period_frequency ≠ 0) ∨
  (c.period ≠ "custom" ∧ c.custom_period_unit ≠ "") ∨
  (c.period ≠ "custom" ∧ c.shift_timeslots.length > 1)

instance (c : RotationConfig) : Decidable (rotationRejectConds c) := by
  unfold rotationRejectConds
  infer_instance

/-! ### `internal/provider/resource_webform.go` -/

/-- One `services` block of the webform configuration / request. -/
structure WFService where
  service_id : String
  webform_id : Int
  name : String
  service_alias : String
deriving DecidableEq, Repr

/-- One `severity` block of the webform configuration / request. -/
structure WFSeverity where
  stype : String
  description : String
deriving DecidableEq, Repr

/-- Webform resource configuration attributes; unset optional attributes
carry terraform's zero value. -/
structure WebformAttrs where
  name : String
  team_id : String
  host_name : String
  is_cname : Bool
  form_owner_type : String
  form_owner_id : String
  form_owner_name : String
  header : String
  title : String
  description : String
  footer_text : String
  footer_link : String
  email_on : List String
  tags : List (String × String)
  services : List WFService
  severity : List WFSeverity
deriving DecidableEq, Repr

/-- The webform resource data (`*schema.ResourceData`): resource ID plus
attributes. -/
structure WebformData where
  id : String
  attrs : WebformAttrs
deriving DecidableEq, Repr

/-- The `api.WebformReq` request struct, with the fields assigned by the
create and update handlers. -/
structure WebformReq where
  Name : String
  TeamID : String
  FormOwnerType : String
  FormOwnerID : String
  FormOwnerName : String
  HostName : String
  IsCname : Bool
  Header : String
  Description : String
  Title : String
  FooterText : String
  FooterLink : String
  EmailOn : List String
  Services : List WFService
  Severity : List WFSeverity
  Tags : List (String × String)
deriving DecidableEq, Repr

/-- The `api.WebformReq` assembled identically by `resourceWebformCreate`
and `resourceWebformUpdate`: a field-by-field copy of the configuration,
with `email_on` copied element-wise, `services` / `severity` decoded (the
`Decode` helper on typed blocks is the identity) and `tags` copied
entry-wise. -/
def buildWebformReq (a : WebformAttrs) : WebformReq :=
  { Name := a.name
    TeamID := a.team_id
    FormOwnerType := a.form_owner_type
    FormOwnerID := a.form_owner_id
    FormOwnerName := a.form_owner_name
    HostName := a.host_name
    IsCname := a.is_cname
    Header := a.header
    Description := a.description
    Title := a.title
    FooterText := a.footer_text
    FooterLink := a.footer_link
    EmailOn := a.email_on.map (fun v => v)
    Services := a.services
    Severity := a.severity
    Tags := a.tags.map (fun kv => kv) }

/-- `resourceWebformRead`.  `d.GetOk("team_id")` reports `ok = false`
exactly when the attribute holds its zero value `""`; `api` is
`client.GetWebformById`; `encodeAndSet` is `tf.EncodeAndSet` writing the
remote webform back into the attributes. -/
def resourceWebformRead {A : Type}
    (api : String → String → Except GoError A)
    (encodeAndSet : A → WebformAttrs → Except GoError WebformAttrs)
    (d : WebformData) : WebformData × Diag :=
  if d.attrs.team_id = "" then (d, .errorf "invalid team id provided !")
  else
    match api d.attrs.team_id d.id with
    | .error e =>
      if e.notFound then ({ d with id := "" }, .ok) else (d, .fromErr e)
    | .ok w =>
      match encodeAndSet w d.attrs with
      | .error e => (d, .fromErr e)
      | .ok a => ({ d with attrs := a }, .ok)

/-- Outcome of the webform create handler: final resource data, the
diagnostics and the list of `CreateWebform` calls issued. -/
structure WebformCreateOutcome where
  d : WebformData
  diag : Diag
  createCalls : List (String × WebformReq)
deriving DecidableEq, Repr

/-- `resourceWebformCreate`: assemble the request, issue `CreateWebform`,
set the resource ID to the decimal string of the returned webform ID
(`strconv.FormatUint(uint64(webform.ID), 10)`), then run the read handler. -/
def resourceWebformCreate {A : Type}
    (createApi : String → WebformReq → Except GoError Nat)
    (readApi : String → String → Except GoError A)
    (encodeAndSet : A → WebformAttrs → Except GoError WebformAttrs)
    (d : WebformData) : WebformCreateOutcome :=
  let req := buildWebformReq d.attrs
  match createApi d.attrs.team_id req with
  | .error e => ⟨d, .fromErr e, [(d.attrs.team_id, req)]⟩
  | .ok wid =>
    let d1 : WebformData := { d with id := Nat.repr wid }
    let p := resourceWebformRead readApi encodeAndSet d1
    ⟨p.1, p.2, [(d.attrs.team_id, req)]⟩

/-- Outcome of the webform update handler: final resource data, the
diagnostics and the list of `UpdateWebform` calls issued (team id, webform
id, request). -/
structure WebformUpdateOutcome where
  d : WebformData
  diag : Diag
  updateCalls : List (String × String × WebformReq)
deriving DecidableEq, Repr

/-- `resourceWebformUpdate`: assemble the request, issue `UpdateWebform` on
the current resource ID, then run the read handler; the handler itself never
calls `SetId`. -/
def resourceWebformUpdate {A : Type}
    (updateApi : String → String → WebformReq → Except GoError Unit)
    (readApi : String → String → Except GoError A)
    (encodeAndSet : A → WebformAttrs → Except GoError WebformAttrs)
    (d : WebformData) : WebformUpdateOutcome :=
  let req := buildWebformReq d.attrs
  match updateApi d.attrs.team_id d.id req with
  | .error e => ⟨d, .fromErr e, [(d.attrs.team_id, d.id, req)]⟩
  | .ok _ =>
    let p := resourceWebformRead readApi encodeAndSet d
    ⟨p.1, p.2, [(d.attrs.team_id, d.id, req)]⟩

/-- `resourceWebformDelete`: `GetOk` check on `team_id`, one
`DeleteWebform` call, drift detection on a not-found error. -/
def resourceWebformDelete {A : Type}
    (api : String → String → Except GoError A)
    (d : WebformData) : WebformData × Diag :=
  if d.attrs.team_id = "" then (d, .errorf "invalid team id provided")
  else
    match api d.attrs.team_id d.id with
    | .error e =>
      if e.notFound then ({ d with id := "" }, .ok) else (d, .fromErr e)
    | .ok _ => (d, .ok)

/-! ### Concrete configurations and oracles used by witnesses -/

/-- A valid daily-period rotation configuration. -/
def cfgDaily : RotationConfig :=
  { schedule_id := 7
    name := "primary"
    participant_groups := []
    start_date := "2026-01-01T00:00:00Z"
    period := "daily"
    shift_timeslots := [⟨9, 30, 120, ""⟩]
    custom_period_frequency := 0
    custom_period_unit := ""
    change_participants_frequency := 1
    change_participants_unit := "rotation"
    end_date := ""
    ends_after_iterations := 0 }

/-- A daily-period configuration that also sets `custom_period_frequency`:
it passes every declared schema validator but is rejected by the create
handler's own validation. -/
def cfgBadFreq : RotationConfig := { cfgDaily with custom_period_frequency := 1 }

/-- A valid custom-period rotation configuration. -/
def cfgCustom : RotationConfig :=
  { cfgDaily with
      period := "custom"
      custom_period_frequency := 2
      custom_period_unit := "week" }

def rotDataTen : RotationData := ⟨"10", cfgDaily⟩

def rotDataBadFreq : RotationData := ⟨"", cfgBadFreq⟩

def rotDataCustom : RotationData := ⟨"", cfgCustom⟩

def rotCreateApiOk : Int → NewRotation → Except GoError Int := fun _ _ => .ok 11

def rotReadApiOk : String → Except GoError Unit := fun _ => .ok ()

def rotReadApiNF : String → Except GoError Unit := fun _ => .error ⟨true, "nf"⟩

def rotReadApiBoom : String → Except GoError Unit := fun _ => .error ⟨false, "boom"⟩

def rotEncOk : Unit → RotationConfig → Except GoError RotationConfig := fun _ a => .ok a

def wfAttrsEx : WebformAttrs :=
  { name := "wf"
    team_id := "team1"
    host_name := "host"
    is_cname := false
    form_owner_type := "user"
    form_owner_id := "u1"
    form_owner_name := "User One"
    header := "hd"
    title := "tt"
    description := "ds"
    footer_text := "ftx"
    footer_link := "flk"
    email_on := ["triggered", "resolved"]
    tags := [("k1", "v1"), ("k2", "v2")]
    services := [⟨"s1", 0, "svc", ""⟩]
    severity := [⟨"sev", "desc"⟩] }

def wfDataEx : WebformData := ⟨"10", wfAttrsEx⟩

def wfCreateApiOk : String → WebformReq → Except GoError Nat := fun _ _ => .ok 42

def wfReadApiOk : String → String → Except GoError Unit := fun _ _ => .ok ()

def wfApiNF : String → String → Except GoError Unit := fun _ _ => .error ⟨true, "nf"⟩

def wfApiBoom : String → String → Except GoError Unit := fun _ _ => .error ⟨false, "boom"⟩

def wfEncOk : Unit → WebformAttrs → Except GoError WebformAttrs := fun _ a => .ok a

def wfUpdateApiOk : String → String → WebformReq → Except GoError Unit := fun _ _ _ => .ok ()

def schedEx : Schedule := ⟨"sid", "sname", "sslug", "blue", "sdesc", ⟨"team9"⟩⟩

def newSchedEx : NewSchedule :=
  ⟨5, "n2", "d2", "UTC", "t0", [⟨"tk", "tv", "tc"⟩], some ⟨"own1", "user"⟩⟩

def gErr : GoError := ⟨false, "encode failed"⟩

def gqlOracleOk : GqlCall → Except GoError Unit := fun _ => .ok ()

/-! ## Helper lemmas -/

theorem rotationRead_no_errorf {A : Type} (api : String → Except GoError A)
    (enc : A → RotationConfig → Except GoError RotationConfig)
    (d : RotationData) (m : String) :
    (resourceScheduleRotationRead api enc d).2 ≠ Diag.errorf m := by
  unfold resourceScheduleRotationRead
  cases h : api d.id with
  | error e => by_cases hn : e.notFound <;> simp [hn]
  | ok v => cases he : enc v d.attrs <;> simp [he]

theorem rotationCreateCall_no_errorf {A : Type}
    (capi : Int → NewRotation → Except GoError Int)
    (rapi : String → Except GoError A)
    (enc : A → RotationConfig → Except GoError RotationConfig)
    (d : RotationData) (req : NewRotation) (m : String) :
    (rotationCreateCall capi rapi enc d req).diag ≠ Diag.errorf m := by
  unfold rotationCreateCall
  cases h : capi d.attrs.schedule_id req with
  | error e => simp
  | ok rid =>
    simpa using rotationRead_no_errorf rapi enc { d with id := toString rid } m

theorem rotationCreate_errorf_iff {A : Type}
    (capi : Int → NewRotation → Except GoError Int)
    (rapi : String → Except GoError A)
    (enc : A → RotationConfig → Except GoError RotationConfig)
    (d : RotationData) :
    ((∃ m, (resourceScheduleRotationCreate capi rapi enc d).diag = Diag.errorf m) ↔
      rotationRejectConds d.attrs) ∧
    (rotationRejectConds d.attrs →
      (resourceScheduleRotationCreate capi rapi enc d).calls = []) := by
  unfold resourceScheduleRotationCreate rotationRejectConds
  have hcond : (d.attrs.shift_timeslots.length > 0 ∧ d.attrs.period ≠ "custom" ∧
      d.attrs.shift_timeslots.length > 1) ↔
      (d.attrs.period ≠ "custom" ∧ d.attrs.shift_timeslots.length > 1) := by
    constructor
    · rintro ⟨_, h2, h3⟩
      exact ⟨h2, h3⟩
    · rintro ⟨h2, h3⟩
      exact ⟨Nat.lt_trans Nat.zero_lt_one h3, h2, h3⟩
  simp only [hcond]
  by_cases hp : d.attrs.period = "custom" <;>
    by_cases hf : d.attrs.custom_period_frequency = 0 <;>
      by_cases hu : d.attrs.custom_period_unit = "" <;>
        by_cases hl : d.attrs.shift_timeslots.length > 1 <;>
          simp [hp, hf, hu, hl, rotationCreateCall_no_errorf]

/-! ## Claim theorems -/

/-- C9: `resourceScheduleRotationCreate` returns a validation error
(`diag.Errorf`) without issuing any API call exactly when the period is
custom and `custom_period_frequency` is 0, or the period is custom and
`custom_period_unit` is empty, or the period is not custom and
`custom_period_frequency` is nonzero, or the period is not custom and
`custom_period_unit` is non-empty, or the period is not custom and more than
one `shift_timeslots` block is given; in particular a configured
`custom_period_frequency` of 0 (terraform's zero value for an unset
attribute) is rejected when the period is custom. -/
theorem rotation_create_validation_exactly {A : Type}
    (capi : Int → NewRotation → Except GoError Int)
    (rapi : String → Except GoError A)
    (enc : A → RotationConfig → Except GoError RotationConfig)
    (d : RotationData) :
    ((∃ m, (resourceScheduleRotationCreate capi rapi enc d).diag = Diag.errorf m) ∧
      (resourceScheduleRotationCreate capi rapi enc d).calls = []) ↔
      rotationRejectConds d.attrs := by
  obtain ⟨h1, h2⟩ := rotationCreate_errorf_iff capi rapi enc d
  constructor
  · rintro ⟨⟨m, hm⟩, _⟩
    exact h1.mp ⟨m, hm⟩
  · intro hc
    exact ⟨h1.mpr hc, h2 hc⟩

/-- C2 counterexample: the configuration `cfgBadFreq` (daily period with
`custom_period_frequency = 1`) passes every declared schema validator, yet
`resourceScheduleRotationCreate` rejects it with a validation error of its
own, issuing no API call. -/
theorem rotation_handler_rejects_validated_config :
    passesRotationSchemaValidators cfgBadFreq = true ∧
    (resourceScheduleRotationCreate rotCreateApiOk rotReadApiOk rotEncOk rotDataBadFreq).diag =
      Diag.errorf "custom_period_frequency can only be set when period is custom" ∧
    (resourceScheduleRotationCreate rotCreateApiOk rotReadApiOk rotEncOk rotDataBadFreq).calls =
      [] := by
  exact ⟨by decide, by decide, by decide⟩

/-- C2 (amended): the declarative schema validators perform the declared
enum/range/length checks, but `resourceScheduleRotationCreate` additionally
enforces its own custom-period and shift-timeslot consistency conditions;
for every configuration that passes the declared schema validators and does
not hit those handler conditions, the handler raises no validation error of
its own. -/
theorem rotation_handler_accepts_consistent_config {A : Type}
    (capi : Int → NewRotation → Except GoError Int)
    (rapi : String → Except GoError A)
    (enc : A → RotationConfig → Except GoError RotationConfig)
    (d : RotationData)
    (_hv : passesRotationSchemaValidators d.attrs = true)
    (hc : ¬ rotationRejectConds d.attrs) (m : String) :
    (resourceScheduleRotationCreate capi rapi enc d).diag ≠ Diag.errorf m := by
  intro hm
  exact hc ((rotationCreate_errorf_iff capi rapi enc d).1.mp ⟨m, hm⟩)

theorem rotation_handler_accepts_consistent_config_witness :
    (resourceScheduleRotationCreate rotCreateApiOk rotReadApiOk rotEncOk rotDataTen).diag ≠
      Diag.errorf "custom_period_frequency can only be set when period is custom" :=
  rotation_handler_accepts_consistent_config rotCreateApiOk rotReadApiOk rotEncOk
    rotDataTen (by decide) (by decide) _

/-- C3 counterexample: the schedule-rotation resource wires its create
handler as the update operation; on the resource data `rotDataTen` (state
ID `"10"`) a successful update issues a create API call (which returns the
new rotation ID 11) and leaves the state ID `"11"`: the resource is
re-created under a new ID even though the update succeeded. -/
theorem rotation_update_changes_state_id :
    rotDataTen.id = "10" ∧
    (scheduleRotationUpdateContext rotCreateApiOk rotReadApiOk rotEncOk rotDataTen).diag =
      Diag.ok ∧
    (scheduleRotationUpdateContext rotCreateApiOk rotReadApiOk rotEncOk rotDataTen).d.id =
      "11" := by
  exact ⟨by decide, by decide, by decide⟩

/-- C3 (amended): the webform resource provides a distinct update operation
that issues `UpdateWebform` on the current state ID and leaves the state ID
unchanged when the update and the follow-up read succeed; the
schedule-rotation resource instead wires its create handler as its update
operation, which issues a create API call and sets the state ID to the ID
returned by that call. -/
theorem webform_update_preserves_id {A B : Type}
    (uapi : String → String → WebformReq → Except GoError Unit)
    (rapi : String → String → Except GoError A)
    (enc : A → WebformAttrs → Except GoError WebformAttrs)
    (d : WebformData) (w : A) (a' : WebformAttrs)
    (ht : d.attrs.team_id ≠ "")
    (hu : uapi d.attrs.team_id d.id (buildWebformReq d.attrs) = .ok ())
    (hr : rapi d.attrs.team_id d.id = .ok w)
    (he : enc w d.attrs = .ok a')
    (capi2 : Int → NewRotation → Except GoError Int)
    (rapi2 : String → Except GoError B)
    (enc2 : B → RotationConfig → Except GoError RotationConfig)
    (d2 : RotationData) :
    (resourceWebformUpdate uapi rapi enc d).d.id = d.id ∧
    (resourceWebformUpdate uapi rapi enc d).diag = Diag.ok ∧
    (resourceWebformUpdate uapi rapi enc d).updateCalls =
      [(d.attrs.team_id, d.id, buildWebformReq d.attrs)] ∧
    scheduleRotationUpdateContext capi2 rapi2 enc2 d2 =
      resourceScheduleRotationCreate capi2 rapi2 enc2 d2 := by
  refine ⟨?_, ?_, ?_, rfl⟩ <;>
    simp [resourceWebformUpdate, resourceWebformRead, ht, hu, hr, he]

theorem webform_update_preserves_id_witness :
    (resourceWebformUpdate wfUpdateApiOk wfReadApiOk wfEncOk wfDataEx).d.id = wfDataEx.id ∧
    (resourceWebformUpdate wfUpdateApiOk wfReadApiOk wfEncOk wfDataEx).diag = Diag.ok := by
  have h := webform_update_preserves_id wfUpdateApiOk wfReadApiOk wfEncOk wfDataEx ()
    wfAttrsEx (by decide) rfl rfl rfl rotCreateApiOk rotReadApiOk rotEncOk rotDataTen
  exact ⟨h.1, h.2.1⟩

/-- C1: drift detection on read and delete.  For the webform read, the
schedule-rotation read and the webform delete handler: when the remote API
call fails with a resource-not-found error the handler clears the resource
ID (sets it to `""`) and returns no error; on any other error it returns
that error through `diag.FromErr` and leaves the stored ID unchanged. -/
theorem read_delete_drift_detection {A B C : Type}
    (webApi : String → String → Except GoError A)
    (encW : A → WebformAttrs → Except GoError WebformAttrs)
    (rotApi : String → Except GoError B)
    (encR : B → RotationConfig → Except GoError RotationConfig)
    (delApi : String → String → Except GoError C)
    (dw : WebformData) (dr : RotationData)
    (e1 e2 e3 : GoError)
    (ht : dw.attrs.team_id ≠ "")
    (h1 : webApi dw.attrs.team_id dw.id = .error e1)
    (h2 : rotApi dr.id = .error e2)
    (h3 : delApi dw.attrs.team_id dw.id = .error e3) :
    resourceWebformRead webApi encW dw =
      (if e1.notFound then { dw with id := "" } else dw,
       if e1.notFound then Diag.ok else Diag.fromErr e1) ∧
    resourceScheduleRotationRead rotApi encR dr =
      (if e2.notFound then { dr with id := "" } else dr,
       if e2.notFound then Diag.ok else Diag.fromErr e2) ∧
    resourceWebformDelete delApi dw =
      (if e3.notFound then { dw with id := "" } else dw,
       if e3.notFound then Diag.ok else Diag.fromErr e3) := by
  refine ⟨?_, ?_, ?_⟩
  · unfold resourceWebformRead
    by_cases hn : e1.notFound <;> simp [ht, h1, hn]
  · unfold resourceScheduleRotationRead
    by_cases hn : e2.notFound <;> simp [h2, hn]
  · unfold resourceWebformDelete
    by_cases hn : e3.notFound <;> simp [ht, h3, hn]

theorem read_delete_drift_detection_witness :
    resourceWebformRead wfApiNF wfEncOk wfDataEx = ({ wfDataEx with id := "" }, Diag.ok) ∧
    resourceScheduleRotationRead rotReadApiBoom rotEncOk rotDataTen =
      (rotDataTen, Diag.fromErr ⟨false, "boom"⟩) ∧
    resourceWebformDelete wfApiNF wfDataEx = ({ wfDataEx with id := "" }, Diag.ok) := by
  have h := read_delete_drift_detection wfApiNF wfEncOk rotReadApiBoom rotEncOk wfApiNF
    wfDataEx rotDataTen ⟨true, "nf"⟩ ⟨false, "boom"⟩ ⟨true, "nf"⟩ (by decide) rfl rfl rfl
  simpa using h

/-- C4: `parse3PartImportID` succeeds exactly when splitting the import
string on `":"` into at most three pieces (Go `strings.SplitN`) yields
exactly three pieces, each non-empty; on success it returns the three
pieces in their original order, and on failure it returns empty strings and
an error. -/
theorem parse3PartImportID_spec (s : String) :
    ((parse3PartImportID s).err = false ↔
      ∃ a b c, (splitNChar ':' 3 s.toList).map String.mk = [a, b, c] ∧
        a ≠ "" ∧ b ≠ "" ∧ c ≠ "") ∧
    (∀ a b c, (splitNChar ':' 3 s.toList).map String.mk = [a, b, c] →
      a ≠ "" → b ≠ "" → c ≠ "" → parse3PartImportID s = ⟨a, b, c, false⟩) ∧
    ((parse3PartImportID s).err = true → parse3PartImportID s = ⟨"", "", "", true⟩) := by
  rcases hL : (splitNChar ':' 3 s.toList).map String.mk with
    _ | ⟨a, _ | ⟨b, _ | ⟨c, _ | ⟨d, t⟩⟩⟩⟩ <;>
      simp only [parse3PartImportID, hL] <;> try simp
  by_cases ha : a = "" <;> by_cases hb : b = "" <;> by_cases hc : c = "" <;>
    simp [ha, hb, hc]
  exact ⟨a, b, c, ⟨rfl, rfl, rfl⟩, ha, hb, hc⟩

theorem parse3PartImportID_witness :
    parse3PartImportID "team1:sched:rot" =
      ⟨"team1", "sched", "rot", false⟩ ∧
    parse3PartImportID "team1:sched" = ⟨"", "", "", true⟩ := by
  refine ⟨(parse3PartImportID_spec "team1:sched:rot").2.1 "team1" "sched" "rot"
    (by decide) (by decide) (by decide) (by decide),
    (parse3PartImportID_spec "team1:sched").2.2 (by decide)⟩

/-- C5: `resourceWebformCreate` builds a `WebformReq` whose `Name`,
`TeamID`, `FormOwnerType`, `FormOwnerID`, `FormOwnerName`, `HostName`,
`IsCname`, `Header`, `Description`, `Title`, `FooterText` and `FooterLink`
equal the corresponding configuration fields, whose `EmailOn` equals the
`email_on` list element-wise in order and whose `Tags` equals the `tags`
map entry-wise; after a successful API create (and successful follow-up
read) the state ID is the decimal string of the returned webform ID. -/
theorem webform_create_request_assembly {A : Type}
    (capi : String → WebformReq → Except GoError Nat)
    (rapi : String → String → Except GoError A)
    (enc : A → WebformAttrs → Except GoError WebformAttrs)
    (d : WebformData) (wid : Nat) (w : A) (a' : WebformAttrs)
    (ht : d.attrs.team_id ≠ "")
    (hc : capi d.attrs.team_id (buildWebformReq d.attrs) = .ok wid)
    (hr : rapi d.attrs.team_id (Nat.repr wid) = .ok w)
    (he : enc w d.attrs = .ok a') :
    (buildWebformReq d.attrs).Name = d.attrs.name ∧
    (buildWebformReq d.attrs).TeamID = d.attrs.team_id ∧
    (buildWebformReq d.attrs).FormOwnerType = d.attrs.form_owner_type ∧
    (buildWebformReq d.attrs).FormOwnerID = d.attrs.form_owner_id ∧
    (buildWebformReq d.attrs).FormOwnerName = d.attrs.form_owner_name ∧
    (buildWebformReq d.attrs).HostName = d.attrs.host_name ∧
    (buildWebformReq d.attrs).IsCname = d.attrs.is_cname ∧
    (buildWebformReq d.attrs).Header = d.attrs.header ∧
    (buildWebformReq d.attrs).Description = d.attrs.description ∧
    (buildWebformReq d.attrs).Title = d.attrs.title ∧
    (buildWebformReq d.attrs).FooterText = d.attrs.footer_text ∧
    (buildWebformReq d.attrs).FooterLink = d.attrs.footer_link ∧
    (buildWebformReq d.attrs).EmailOn = d.attrs.email_on ∧
    (buildWebformReq d.attrs).Tags = d.attrs.tags ∧
    (resourceWebformCreate capi rapi enc d).createCalls =
      [(d.attrs.team_id, buildWebformReq d.attrs)] ∧
    (resourceWebformCreate capi rapi enc d).d.id = Nat.repr wid ∧
    (resourceWebformCreate capi rapi enc d).diag = Diag.ok := by
  refine ⟨rfl, rfl, rfl, rfl, rfl, rfl, rfl, rfl, rfl, rfl, rfl, rfl,
    by simp [buildWebformReq], by simp [buildWebformReq], ?_, ?_, ?_⟩ <;>
    simp [resourceWebformCreate, resourceWebformRead, ht, hc, hr, he]

theorem webform_create_request_assembly_witness :
    (buildWebformReq wfAttrsEx).Name = "wf" ∧
    (buildWebformReq wfAttrsEx).EmailOn = ["triggered", "resolved"] ∧
    (buildWebformReq wfAttrsEx).Tags = [("k1", "v1"), ("k2", "v2")] ∧
    (resourceWebformCreate wfCreateApiOk wfReadApiOk wfEncOk wfDataEx).d.id = "42" ∧
    (resourceWebformCreate wfCreateApiOk wfReadApiOk wfEncOk wfDataEx).diag = Diag.ok := by
  have h := webform_create_request_assembly wfCreateApiOk wfReadApiOk wfEncOk wfDataEx
    42 () wfAttrsEx (by decide) rfl rfl rfl
  exact ⟨h.1, h.2.2.2.2.2.2.2.2.2.2.2.2.1, h.2.2.2.2.2.2.2.2.2.2.2.2.2.1,
    h.2.2.2.2.2.2.2.2.2.2.2.2.2.2.2.1, h.2.2.2.2.2.2.2.2.2.2.2.2.2.2.2.2⟩

/-- C6: `Schedule.Encode` produces a map keyed by the `tf` struct tags
(`id`, `name`, `color`, `description`), omitting the fields tagged `tf:"-"`
(`Slug`, `Owner`), and then sets key `team_id` to `Owner.ID`;
`NewSchedule.Encode` additionally replaces key `tags` with the element-wise
encoding of the `Tags` slice, and each method returns an error exactly when
the underlying encode of the struct (or, for `NewSchedule`, of the tags
slice) errors. -/
theorem schedule_encode_spec (s : Schedule) (t : NewSchedule) (o : Owner)
    (ho : t.Owner = some o) :
    scheduleEncode s =
      .ok (tfEncodeSchedule s ++ [("team_id", .str s.Owner.ID)]) ∧
    (tfEncodeSchedule s).map Prod.fst = ["id", "name", "color", "description"] ∧
    (∃ m, scheduleEncode s = .ok m ∧
      m.map Prod.fst = ["id", "name", "color", "description", "team_id"] ∧
      mapGet m "team_id" = some (.str s.Owner.ID) ∧
      mapGet m "name" = some (.str s.Name) ∧
      mapGet m "color" = some (.str s.Colour)) ∧
    (∀ (enc : Schedule → Except GoError TfM) (e : GoError),
      enc s = .error e → Schedule.EncodeWith enc s = .error e) ∧
    (∃ m, newScheduleEncode t = some (.ok m) ∧
      m.map Prod.fst = ["id", "name", "description", "timezone", "team_id", "tags"] ∧
      mapGet m "team_id" = some (.str o.ID) ∧
      mapGet m "tags" = some (.listOfMaps (t.Tags.map tfEncodeTag))) ∧
    (∀ (enc : NewSchedule → Except GoError TfM)
       (encS : List Tag → Except GoError (List TfM)),
      (∃ e, NewSchedule.EncodeWith enc encS t = some (.error e)) ↔
        ((∃ e, enc t = .error e) ∨
          ((∃ m, enc t = .ok m) ∧ ∃ e, encS t.Tags = .error e))) := by
  refine ⟨rfl, rfl, ?_, ?_, ?_, ?_⟩
  · refine ⟨tfEncodeSchedule s ++ [("team_id", TfVal.str s.Owner.ID)],
      rfl, ?_, ?_, ?_, ?_⟩ <;> rfl
  · intro enc e he
    unfold Schedule.EncodeWith
    rw [he]
  · refine ⟨[("id", TfVal.int t.ID), ("name", TfVal.str t.Name),
      ("description", TfVal.str t.Description), ("timezone", TfVal.str t.TimeZone),
      ("team_id", TfVal.str o.ID), ("tags", TfVal.listOfMaps (t.Tags.map tfEncodeTag))],
      ?_, rfl, rfl, rfl⟩
    unfold newScheduleEncode NewSchedule.EncodeWith
    rw [ho]
    rfl
  · intro enc encS
    cases henc : enc t with
    | error e => simp [NewSchedule.EncodeWith, henc]
    | ok m =>
      cases hS : encS t.Tags with
      | error e => simp [NewSchedule.EncodeWith, henc, ho, hS]
      | ok tl => simp [NewSchedule.EncodeWith, henc, ho, hS]

theorem schedule_encode_spec_witness :
    scheduleEncode schedEx =
      .ok [("id", .str "sid"), ("name", .str "sname"), ("color", .str "blue"),
        ("description", .str "sdesc"), ("team_id", .str "team9")] ∧
    Schedule.EncodeWith (fun _ => .error gErr) schedEx = .error gErr ∧
    (∃ m, newScheduleEncode newSchedEx = some (.ok m) ∧
      mapGet m "team_id" = some (.str "own1")) := by
  have h := schedule_encode_spec schedEx newSchedEx ⟨"own1", "user"⟩ rfl
  refine ⟨h.1, h.2.2.2.1 (fun _ => .error gErr) gErr rfl, ?_⟩
  obtain ⟨m, hm, _, hteam, _⟩ := h.2.2.2.2.1
  exact ⟨m, hm, hteam⟩

/-- C10: `NewSchedule.Encode` dereferences the `Owner` pointer to set
`team_id` (after a successful underlying encode), so the operation is
defined exactly when `Owner` is non-nil: the embedding returns `some`
result iff `Owner` is a non-nil pointer. -/
theorem newSchedule_encode_total_iff_owner (s : NewSchedule) :
    (newScheduleEncode s).isSome ↔ s.Owner.isSome := by
  unfold newScheduleEncode NewSchedule.EncodeWith
  cases h : s.Owner <;> simp [h]

/-- C7: every schedule API wrapper issues exactly one HTTP or GraphQL
request per invocation and returns the transport's result unmodified (in
particular there is no retry loop: this holds for error results as well,
since the oracle's answer is returned whatever it is). -/
theorem schedule_api_single_shot {A B C D E F G H : Type}
    (o1 : HttpRequest → Except GoError A) (o2 : HttpRequest → Except GoError B)
    (o3 : HttpRequest → Except GoError C) (o4 : HttpRequest → Except GoError D)
    (o5 : HttpRequest → Except GoError E)
    (g1 : GqlCall → Except GoError F) (g2 : GqlCall → Except GoError G)
    (g3 : GqlCall → Except GoError H)
    (base teamID id s : String) (req : CreateUpdateScheduleReq)
    (payload : NewSchedule) :
    (∃ r, GetScheduleById o1 base teamID id = ([r], o1 r)) ∧
    (∃ r, ListSchedules o2 base teamID = ([r], o2 r)) ∧
    (∃ r, CreateSchedule o3 base req = ([r], o3 r)) ∧
    (∃ r, UpdateSchedule o4 base id req = ([r], o4 r)) ∧
    (∃ r, DeleteSchedule o5 base id = ([r], o5 r)) ∧
    (∃ r, DeleteScheduleV2ByID g1 s = ([r], g1 r)) ∧
    (∃ r, GetScheduleV2ById g2 s = ([r], g2 r)) ∧
    (∃ r, CreateScheduleV2 g3 payload = ([r], g3 r)) :=
  ⟨⟨_, rfl⟩, ⟨_, rfl⟩, ⟨_, rfl⟩, ⟨_, rfl⟩, ⟨_, rfl⟩, ⟨_, rfl⟩, ⟨_, rfl⟩, ⟨_, rfl⟩⟩

theorem goParseInt64_syn_val (s : String) :
    (goParseInt64 s).2 = some ParseErr.syn → (goParseInt64 s).1 = 0 := by
  unfold goParseInt64
  cases hL : s.toList with
  | nil => intro _; rfl
  | cons c rest =>
    cases hD : digitsVal (if c = '-' ∨ c = '+' then rest else c :: rest) with
    | none => intro _; simp [hD]
    | some n =>
      simp only [hD]
      split_ifs <;> simp

/-- C8 counterexample: the string `"9223372036854775808"` (2^63) is not
parseable as a base-10 64-bit integer (`strconv.ParseInt` reports a range
error), yet `DeleteScheduleV2ByID` issues its GraphQL request with variable
`ID` equal to the clamped value `9223372036854775807`, not `0`. -/
theorem deleteScheduleV2_range_id_not_zero :
    (goParseInt64 "9223372036854775808").2 = some ParseErr.range ∧
    (DeleteScheduleV2ByID gqlOracleOk "9223372036854775808").1 =
      [⟨"mutate", [("ID", GqlVar.int 9223372036854775807)]⟩] ∧
    (9223372036854775807 : Int) ≠ 0 := by
  exact ⟨by decide, by decide, by decide⟩

/-- C8 (amended): for every ID string, `DeleteScheduleV2ByID` and
`GetScheduleV2ById` never return a parse error to the caller (the
diagnostic built from the `strconv.ParseInt` error is discarded) and issue
exactly one GraphQL request with variable `ID` equal to the integer value
`ParseInt` returned alongside any error: `0` for syntactically invalid
strings, the clamped 64-bit boundary value for out-of-range strings. -/
theorem scheduleV2_parse_error_discarded {A B : Type}
    (g1 : GqlCall → Except GoError A) (g2 : GqlCall → Except GoError B)
    (s : String) :
    DeleteScheduleV2ByID g1 s =
      ([⟨"mutate", [("ID", GqlVar.int (goParseInt64 s).1)]⟩],
        g1 ⟨"mutate", [("ID", GqlVar.int (goParseInt64 s).1)]⟩) ∧
    GetScheduleV2ById g2 s =
      ([⟨"query", [("ID", GqlVar.int (goParseInt64 s).1)]⟩],
        g2 ⟨"query", [("ID", GqlVar.int (goParseInt64 s).1)]⟩) ∧
    ((goParseInt64 s).2 = some ParseErr.syn → (goParseInt64 s).1 = 0) :=
  ⟨rfl, rfl, goParseInt64_syn_val s⟩

theorem scheduleV2_parse_error_discarded_witness :
    DeleteScheduleV2ByID gqlOracleOk "not-a-number" =
      ([⟨"mutate", [("ID", GqlVar.int 0)]⟩], Except.ok ()) ∧
    (goParseInt64 "not-a-number").1 = 0 := by
  have h := scheduleV2_parse_error_discarded gqlOracleOk gqlOracleOk "not-a-number"
  have h0 : (goParseInt64 "not-a-number").1 = 0 := h.2.2 (by decide)
  constructor
  · rw [h.1, h0]
    rfl
  · exact h0

end Squadcast
